import Mathlib

/-!
Verification development for the trading-journal backend's Trade Lifecycle &
Performance Analytics Engine.  JavaScript numbers are modelled as rationals
(all computations the claims touch are exact at the inputs considered);
JavaScript divisions that can hit a zero divisor are modelled by an explicit
non-finite-aware result type.  Optional fields (exit details, override flag)
are modelled with `Option` / `Bool`, and JavaScript truthiness of a numeric
field (`0`, `null`, `undefined` are falsy) is made explicit.
-/

namespace TradingJournal

/-- Trade lifecycle status.  The `Trade` schema enum admits only `"OPEN"` and
`"CLOSED"`; `PARTIALLY_CLOSED` is listed because the specification names it. -/
inductive Status
  | OPEN
  | PARTIALLY_CLOSED
  | CLOSED
deriving DecidableEq, Repr

/-- The `type` field of a trade document: `"LONG"` or `"SHORT"`. -/
inductive Direction
  | LONG
  | SHORT
deriving DecidableEq, Repr

/-- The `tradeType` field of a trade document: `"DAY"` or `"SWING"`. -/
inductive TradeType
  | DAY
  | SWING
deriving DecidableEq, Repr

/-- Result of a JavaScript arithmetic expression that may be non-finite
(division by zero produces `Infinity`, `-Infinity` or `NaN`). -/
inductive JsNum
  | finite (q : ℚ)
  | posInf
  | negInf
  | nan
deriving DecidableEq, Repr

/-- JavaScript `(a / b) * 100` for finite `a`, `b`: finite when `b ≠ 0`,
otherwise `±Infinity`/`NaN` by the sign of `a` (the zero divisors in the code
arise as products of non-negative schema fields, hence `+0`). -/
def jsDivMul100 (a b : ℚ) : JsNum :=
  if b ≠ 0 then JsNum.finite (a / b * 100)
  else if 0 < a then JsNum.posInf
  else if a < 0 then JsNum.negInf
  else JsNum.nan

/-- JavaScript `a / b` for finite `a`, `b` (same conventions as above). -/
def jsDiv (a b : ℚ) : JsNum :=
  if b ≠ 0 then JsNum.finite (a / b)
  else if 0 < a then JsNum.posInf
  else if a < 0 then JsNum.negInf
  else JsNum.nan

/-- JavaScript truthiness of an optional numeric field: absent (`null` /
`undefined`) and `0` are falsy. -/
def truthyNum : Option ℚ → Bool
  | none => false
  | some v => v ≠ 0

/-- `Number(x.toFixed(2))`: rounding to two decimal places.  At every input
this development evaluates it on, the argument is an exact multiple of
`1/100`, so the tie-breaking rule is immaterial. -/
def roundTo2 (q : ℚ) : ℚ := (round (q * 100) : ℤ) / 100

/-- `Number(x.toFixed(1))`: rounding to one decimal place (the leaderboard's
`winRate` string, modelled by its numeric value). -/
def roundTo1 (q : ℚ) : ℚ := (round (q * 10) : ℤ) / 10

/-- The fields of a `Trade` document that the P/L and day-trade pre-save hooks
and the route-level P/L helper read or write.  Timestamps are milliseconds
since the epoch.  `validationSameDayAs` models truthiness of the
`_validationSameDayAs` override field. -/
structure TradeDoc where
  type : Direction
  tradeType : TradeType
  entryPrice : ℚ
  entryQuantity : ℚ
  entryDate : ℚ
  exitPrice : Option ℚ
  exitQuantity : Option ℚ
  exitDate : Option ℚ
  realized : ℚ
  percentage : JsNum
  status : Status
  validationSameDayAs : Bool
deriving DecidableEq, Repr

/-- The `tradeSchema.pre("save")` P/L hook of `models/Trade.js`: if exit
price, exit quantity and exit date are all truthy, set
`realized = exitValue − entryValue` (LONG) or `entryValue − exitValue`
(SHORT) over the FULL entry quantity, `percentage = realized/entryValue·100`,
`status = "CLOSED"`; otherwise reset P/L to zero and `status = "OPEN"`. -/
def tradePreSaveHook (t : TradeDoc) : TradeDoc :=
  if truthyNum t.exitPrice && truthyNum t.exitQuantity && t.exitDate.isSome then
    let entryValue := t.entryPrice * t.entryQuantity
    let exitValue := (t.exitPrice.getD 0) * (t.exitQuantity.getD 0)
    let realized :=
      match t.type with
      | Direction.LONG => exitValue - entryValue
      | Direction.SHORT => entryValue - exitValue
    { t with
      realized := realized
      percentage := jsDivMul100 realized entryValue
      status := Status.CLOSED }
  else
    { t with
      realized := 0
      percentage := JsNum.finite 0
      status := Status.OPEN }

/-- Milliseconds per hour (`1000 * 60 * 60`). -/
def msPerHour : ℚ := 1000 * 60 * 60

/-- The `tradeSchema.pre("save")` day-trade validation hook of
`models/Trade.js`: for a `"DAY"` trade with an exit date, unless the
`_validationSameDayAs` override is set, reject when
`Math.abs(exitDate − entryDate) / 3600000 > 24`. -/
def dayTradeHookError (t : TradeDoc) : Option String :=
  if t.tradeType = TradeType.DAY ∧ t.exitDate.isSome then
    if t.validationSameDayAs then none
    else
      let hoursDifference := |t.exitDate.getD 0 - t.entryDate| / msPerHour
      if 24 < hoursDifference then
        some "Day trades must have entry and exit within 24 hours"
      else none
  else none

/-- Saving a trade document: the P/L hook runs first (it never fails), then
the day-trade validation hook, which can reject the save. -/
def saveTrade (t : TradeDoc) : Except String TradeDoc :=
  let t1 := tradePreSaveHook t
  match dayTradeHookError t1 with
  | some e => Except.error e
  | none => Except.ok t1

/-- Result shape of the route-level helper `calculateProfitLoss` in
`routes/tradeRoutes.js`. -/
structure RoutePL where
  realized : ℚ
  percentage : ℚ
  status : Status
deriving DecidableEq, Repr

/-- The helper `calculateProfitLoss` of `routes/tradeRoutes.js`: open result
when exit price or exit quantity is falsy; otherwise P/L over the FULL entry
quantity, throwing (`Except.error`) when the entry value is zero, and rounding
`realized` and `percentage` to two decimals via `toFixed(2)`. -/
def calculateProfitLoss (t : TradeDoc) : Except String RoutePL :=
  if !(truthyNum t.exitPrice && truthyNum t.exitQuantity) then
    Except.ok { realized := 0, percentage := 0, status := Status.OPEN }
  else
    let entryValue := t.entryPrice * t.entryQuantity
    let exitValue := (t.exitPrice.getD 0) * (t.exitQuantity.getD 0)
    let realizedPL :=
      match t.type with
      | Direction.LONG => exitValue - entryValue
      | Direction.SHORT => entryValue - exitValue
    if entryValue = 0 then Except.error "Entry value cannot be zero"
    else
      Except.ok
        { realized := roundTo2 realizedPL
          percentage := roundTo2 (realizedPL / entryValue * 100)
          status := Status.CLOSED }

/-- The fields of an `OptionTrade` document that its P/L pre-save hook reads
or writes. -/
structure OptionTradeDoc where
  type : Direction
  entryPrice : ℚ
  contracts : ℚ
  exitPrice : Option ℚ
  exitDate : Option ℚ
  realized : ℚ
  percentage : JsNum
  perContract : JsNum
  status : Status
deriving DecidableEq, Repr

/-- The `optionTradeSchema.pre("save")` P/L hook: with truthy exit price and
an exit date, entry/exit values carry the fixed contract multiplier 100
(`price * contracts * 100`); P/L by direction as for equity trades. -/
def optionPreSaveHook (t : OptionTradeDoc) : OptionTradeDoc :=
  if truthyNum t.exitPrice && t.exitDate.isSome then
    let contractMultiplier : ℚ := 100
    let entryValue := t.entryPrice * t.contracts * contractMultiplier
    let exitValue := (t.exitPrice.getD 0) * t.contracts * contractMultiplier
    let realized :=
      match t.type with
      | Direction.LONG => exitValue - entryValue
      | Direction.SHORT => entryValue - exitValue
    { t with
      realized := realized
      percentage := jsDivMul100 realized entryValue
      perContract := jsDiv realized t.contracts
      status := Status.CLOSED }
  else
    { t with
      realized := 0
      percentage := JsNum.finite 0
      perContract := JsNum.finite 0
      status := Status.OPEN }

/-- The fields of a stored trade document that the leaderboard aggregation
reads (`createdAt` from the schema timestamps, `profitLoss.realized`), plus
the entry/exit dates, carried to express that they play no role. -/
structure StoredTrade where
  createdAt : ℚ
  entryDate : ℚ
  exitDate : Option ℚ
  realized : ℚ
deriving DecidableEq, Repr

/-- One user as the leaderboard sees it: the user's equity (`Trade`) and
option (`OptionTrade`) documents. -/
structure UserRec where
  equityTrades : List StoredTrade
  optionTrades : List StoredTrade
deriving DecidableEq, Repr

/-- The `timeFrame` query parameter of `GET /leaderboard`. -/
inductive TimeFrame
  | today
  | week
  | month
  | year
  | all
deriving DecidableEq, Repr

/-- The four candidate start timestamps the handler derives from `new Date()`
(`setHours(0,0,0,0)`, `setDate(getDate()-7)`, `setMonth(getMonth()-1)`,
`setFullYear(getFullYear()-1)`).  JavaScript `Date` calendar arithmetic is
timezone-dependent, so the resulting timestamps are inputs to the model. -/
structure NowCtx where
  startOfToday : ℚ
  sevenDaysAgo : ℚ
  oneMonthAgo : ℚ
  oneYearAgo : ℚ
deriving DecidableEq, Repr

/-- The `startDate` of the leaderboard's date filter: `none` means no filter
(the `timeFrame = "all"` branch leaves `dateFilter = {}`). -/
def windowStart : TimeFrame → NowCtx → Option ℚ
  | TimeFrame.today, n => some n.startOfToday
  | TimeFrame.week, n => some n.sevenDaysAgo
  | TimeFrame.month, n => some n.oneMonthAgo
  | TimeFrame.year, n => some n.oneYearAgo
  | TimeFrame.all, _ => none

/-- The `dateFilter` match stage: `{ createdAt: { $gte: startDate } }` when a
start date is present, no constraint otherwise. -/
def inWindow (start : Option ℚ) (t : StoredTrade) : Bool :=
  match start with
  | none => true
  | some s => s ≤ t.createdAt

/-- Accumulator of the leaderboard's `$group` stage. -/
structure AggRow where
  totalTrades : ℕ
  winningTrades : ℕ
  totalProfit : ℚ
deriving DecidableEq, Repr

/-- One document's contribution to the `$group` accumulators:
`totalTrades: {$sum: 1}`, `winningTrades: {$sum: {$cond: [realized > 0 ...]}}`,
`totalProfit: {$sum: realized}`. -/
def aggStep (acc : AggRow) (t : StoredTrade) : AggRow :=
  { totalTrades := acc.totalTrades + 1
    winningTrades := acc.winningTrades + (if 0 < t.realized then 1 else 0)
    totalProfit := acc.totalProfit + t.realized }

/-- The aggregation pipeline over the matched documents: `$group` emits no
row at all when the match set is empty, hence the `Option`. -/
def aggregateRows (ts : List StoredTrade) : Option AggRow :=
  match ts with
  | [] => none
  | _ => some (ts.foldl aggStep { totalTrades := 0, winningTrades := 0, totalProfit := 0 })

/-- The per-trader stats object the handler returns (`winRate` is
`(winningTrades/totalTrades*100).toFixed(1)` when `totalTrades` is truthy,
the number `0` otherwise; the string is modelled by its numeric value). -/
structure TraderStats where
  totalTrades : ℕ
  winningTrades : ℕ
  totalProfit : ℚ
  winRate : ℚ
deriving DecidableEq, Repr

/-- Stats for one trader in `GET /leaderboard`: aggregate the trader's
EQUITY trades passing the `createdAt` filter (the handler queries only the
`Trade` collection), defaulting to all-zero stats when the aggregation
returns no row (`stats[0] || {...}`). -/
def traderStatsFor (start : Option ℚ) (u : UserRec) : TraderStats :=
  let row :=
    (aggregateRows (u.equityTrades.filter (inWindow start))).getD
      { totalTrades := 0, winningTrades := 0, totalProfit := 0 }
  { totalTrades := row.totalTrades
    winningTrades := row.winningTrades
    totalProfit := row.totalProfit
    winRate :=
      if row.totalTrades ≠ 0 then
        roundTo1 ((row.winningTrades : ℚ) / (row.totalTrades : ℚ) * 100)
      else 0 }

/-- The `GET /leaderboard` handler: stats for every user, in the order the
users come from `User.find()` (no sort is applied to the result). -/
def leaderboard (users : List UserRec) (tf : TimeFrame) (n : NowCtx) : List TraderStats :=
  users.map (traderStatsFor (windowStart tf n))

/-- A user record with the option trades dropped (for stating that the
leaderboard never reads them). -/
def dropOptionTrades (u : UserRec) : UserRec :=
  { u with optionTrades := [] }

/-- What `GET /analysis/drawdown` reads from one closed trade: the exit
calendar day (`toDateString` equivalence class, abstracted as an integer day
index) and `profitLoss.realized`. -/
structure DTrade where
  exitDay : ℤ
  realized : ℚ
deriving DecidableEq, Repr

/-- The running state of the `GET /analysis/drawdown` loop. -/
structure DrawdownState where
  maxDrawdown : ℚ
  currentDrawdown : ℚ
  equity : ℚ
  peakEquity : ℚ
  biggestLoss : ℚ
  maxConsecutiveLosses : ℕ
  currentLossStreak : ℕ
deriving DecidableEq, Repr

/-- One iteration of the `trades.forEach` body of `GET /analysis/drawdown`:
update equity/peak/drawdown from `profitLoss.realized`, then extend the loss
streak when `pl < 0` and reset it otherwise.  The exit date is never read. -/
def drawdownStep (s : DrawdownState) (t : DTrade) : DrawdownState :=
  let pl := t.realized
  let equity := s.equity + pl
  let peakEquity := if s.peakEquity < equity then equity else s.peakEquity
  let currentDrawdown := peakEquity - equity
  let maxDrawdown :=
    if s.maxDrawdown < currentDrawdown then currentDrawdown else s.maxDrawdown
  if pl < 0 then
    { maxDrawdown := maxDrawdown
      currentDrawdown := currentDrawdown
      equity := equity
      peakEquity := peakEquity
      biggestLoss := if pl < s.biggestLoss then pl else s.biggestLoss
      maxConsecutiveLosses :=
        if s.maxConsecutiveLosses < s.currentLossStreak + 1 then
          s.currentLossStreak + 1
        else s.maxConsecutiveLosses
      currentLossStreak := s.currentLossStreak + 1 }
  else
    { maxDrawdown := maxDrawdown
      currentDrawdown := currentDrawdown
      equity := equity
      peakEquity := peakEquity
      biggestLoss := s.biggestLoss
      maxConsecutiveLosses := s.maxConsecutiveLosses
      currentLossStreak := 0 }

/-- Initial state of the drawdown loop (all counters zero). -/
def drawdownInit : DrawdownState :=
  { maxDrawdown := 0
    currentDrawdown := 0
    equity := 0
    peakEquity := 0
    biggestLoss := 0
    maxConsecutiveLosses := 0
    currentLossStreak := 0 }

/-- The `GET /analysis/drawdown` computation over the user's CLOSED trades
sorted ascending by exit date. -/
def drawdownAnalysis (ts : List DTrade) : DrawdownState :=
  ts.foldl drawdownStep drawdownInit

/-- Modelled from the spec: sum of realized P&L per calendar day of exit,
over a list already sorted by exit date (so equal-day trades are adjacent);
`sumDaysAux day acc ts` carries the running day and its accumulated P&L. -/
def sumDaysAux (day : ℤ) (acc : ℚ) : List DTrade → List ℚ
  | [] => [acc]
  | t :: rest =>
    if t.exitDay = day then sumDaysAux day (acc + t.realized) rest
    else acc :: sumDaysAux t.exitDay t.realized rest

/-- Modelled from the spec: the list of daily P&L values of a trade list
sorted by exit date (spec section 4.4: trades exiting the same day are summed
into one daily value before streak logic runs). -/
def dailyPL : List DTrade → List ℚ
  | [] => []
  | t :: rest => sumDaysAux t.exitDay t.realized rest

/-- Longest run of consecutive negative values, with the running streak and
the best streak so far as accumulators. -/
def maxNegRunAux : List ℚ → ℕ → ℕ → ℕ
  | [], _, best => best
  | p :: rest, cur, best =>
    if p < 0 then maxNegRunAux rest (cur + 1) (max best (cur + 1))
    else maxNegRunAux rest 0 best

/-- Modelled from the spec: `maxConsecutiveLosses` counted over calendar days
of exit — the longest run of consecutive days with negative daily P&L. -/
def specMaxConsecutiveLossDays (ts : List DTrade) : ℕ :=
  maxNegRunAux (dailyPL ts) 0 0

/-- A LONG trade with one entry of quantity 100 at price 10 and one exit of
quantity 40 at price 12 (the partial-close trade of the spec's proportionality
property). -/
def partialTrade : TradeDoc :=
  { type := Direction.LONG
    tradeType := TradeType.SWING
    entryPrice := 10
    entryQuantity := 100
    entryDate := 0
    exitPrice := some 12
    exitQuantity := some 40
    exitDate := some 0
    realized := 0
    percentage := JsNum.finite 0
    status := Status.OPEN
    validationSameDayAs := false }

/-- A DAY trade whose exit date lies 90 hours BEFORE its entry date, so the
signed difference `exit − entry` is far below 24 hours while the absolute
difference exceeds it. -/
def backwardDayTrade : TradeDoc :=
  { type := Direction.LONG
    tradeType := TradeType.DAY
    entryPrice := 10
    entryQuantity := 1
    entryDate := 324000000
    exitPrice := some 11
    exitQuantity := some 1
    exitDate := some 0
    realized := 0
    percentage := JsNum.finite 0
    status := Status.OPEN
    validationSameDayAs := false }

/-- A DAY trade exiting exactly 24 hours and 1 second (86401000 ms) after its
entry. -/
def lateDayTrade : TradeDoc :=
  { type := Direction.LONG
    tradeType := TradeType.DAY
    entryPrice := 10
    entryQuantity := 1
    entryDate := 0
    exitPrice := some 11
    exitQuantity := some 1
    exitDate := some 86401000
    realized := 0
    percentage := JsNum.finite 0
    status := Status.OPEN
    validationSameDayAs := false }

/-- A DAY trade exiting 23 hours 59 minutes 59 seconds (86399000 ms) after
its entry. -/
def earlyDayTrade : TradeDoc :=
  { type := Direction.LONG
    tradeType := TradeType.DAY
    entryPrice := 10
    entryQuantity := 1
    entryDate := 0
    exitPrice := some 11
    exitQuantity := some 1
    exitDate := some 86399000
    realized := 0
    percentage := JsNum.finite 0
    status := Status.OPEN
    validationSameDayAs := false }

/-- A SWING trade with a zero-price entry (entry value 0) and truthy exit
details. -/
def zeroEntryTrade : TradeDoc :=
  { type := Direction.LONG
    tradeType := TradeType.SWING
    entryPrice := 0
    entryQuantity := 1
    entryDate := 0
    exitPrice := some 5
    exitQuantity := some 1
    exitDate := some 0
    realized := 0
    percentage := JsNum.finite 0
    status := Status.OPEN
    validationSameDayAs := false }

/-- A user with no trades at all. -/
def emptyUser : UserRec :=
  { equityTrades := [], optionTrades := [] }

/-- A user with a single equity trade of realized P&L 100. -/
def equityUser : UserRec :=
  { equityTrades := [{ createdAt := 0, entryDate := 0, exitDate := some 0, realized := 100 }]
    optionTrades := [] }

/-- A user whose only trade is an OPTION trade of realized P&L 50. -/
def optionOnlyUser : UserRec :=
  { equityTrades := []
    optionTrades := [{ createdAt := 0, entryDate := 0, exitDate := some 0, realized := 50 }] }

/-- A fixed calendar context for evaluating the leaderboard at concrete
inputs. -/
def nowCtx0 : NowCtx :=
  { startOfToday := 0, sevenDaysAgo := 0, oneMonthAgo := 0, oneYearAgo := 0 }

/-- Two losing trades exiting on the same calendar day. -/
def sameDayLossA : DTrade := { exitDay := 0, realized := -5 }

/-- The second losing trade of the same calendar day. -/
def sameDayLossB : DTrade := { exitDay := 0, realized := -7 }

/-- Claim C1 (counterexample): on the entry `qty=100 @ 10`, exit
`qty=40 @ 12` LONG trade, neither the route helper nor the model hook
produces `realized = 80` / `status = PARTIALLY_CLOSED`: the code does not
prorate the entry value by the closed fraction. -/
theorem C1_counterexample :
    calculateProfitLoss partialTrade ≠
      Except.ok { realized := 80, percentage := 20, status := Status.PARTIALLY_CLOSED }
    ∧ (tradePreSaveHook partialTrade).realized ≠ 80
    ∧ (tradePreSaveHook partialTrade).status ≠ Status.PARTIALLY_CLOSED := by
  refine ⟨?_, ?_, ?_⟩
  · intro h
    simp [calculateProfitLoss, partialTrade, truthyNum, roundTo2] at h
  · simp [tradePreSaveHook, partialTrade, truthyNum]
    norm_num
  · simp [tradePreSaveHook, partialTrade, truthyNum]

/-- Claim C1 (amended): for a LONG trade with a single entry of quantity 100
at price 10 and a single exit of quantity 40 at price 12, the recomputation
subtracts the FULL entry value (not a prorated one): both the route helper
and the model pre-save hook yield `realized = 480 − 1000 = −520`,
`percentage = −52`, and `status = CLOSED`. -/
theorem C1_partial_close_actual :
    calculateProfitLoss partialTrade =
      Except.ok { realized := -520, percentage := -52, status := Status.CLOSED }
    ∧ (tradePreSaveHook partialTrade).realized = -520
    ∧ (tradePreSaveHook partialTrade).percentage = JsNum.finite (-52)
    ∧ (tradePreSaveHook partialTrade).status = Status.CLOSED := by
  refine ⟨?_, ?_, ?_, ?_⟩
  · simp [calculateProfitLoss, partialTrade, truthyNum, roundTo2]
    norm_num [round_eq]
  · simp [tradePreSaveHook, partialTrade, truthyNum]
    norm_num
  · simp [tradePreSaveHook, partialTrade, truthyNum, jsDivMul100]
    norm_num
  · simp [tradePreSaveHook, partialTrade, truthyNum]

/-- Claim C2 (counterexample): a trade with entry quantity 100 and exit
quantity 40 (both exit price and date present) is marked `CLOSED` by the
recomputation, although its exit quantity differs from its entry quantity and
the claim demands `PARTIALLY_CLOSED` there. -/
theorem C2_counterexample :
    (tradePreSaveHook partialTrade).status = Status.CLOSED
    ∧ partialTrade.entryQuantity = 100
    ∧ partialTrade.exitQuantity = some 40
    ∧ (tradePreSaveHook partialTrade).status ≠ Status.PARTIALLY_CLOSED := by
  refine ⟨?_, rfl, rfl, ?_⟩ <;> simp [tradePreSaveHook, partialTrade, truthyNum]

/-- Claim C2 (amended): after the P/L hook recomputes a trade, its status is
determined by PRESENCE of the exit details, not by quantity comparison:
`CLOSED` iff exit price, exit quantity and exit date are all truthy, `OPEN`
otherwise, and `PARTIALLY_CLOSED` never occurs. -/
theorem C2_status_from_exit_details (t : TradeDoc) :
    ((tradePreSaveHook t).status = Status.CLOSED ↔
      (truthyNum t.exitPrice = true ∧ truthyNum t.exitQuantity = true ∧
        t.exitDate.isSome = true))
    ∧ ((tradePreSaveHook t).status = Status.OPEN ↔
      ¬(truthyNum t.exitPrice = true ∧ truthyNum t.exitQuantity = true ∧
        t.exitDate.isSome = true))
    ∧ (tradePreSaveHook t).status ≠ Status.PARTIALLY_CLOSED := by
  by_cases h : (truthyNum t.exitPrice && truthyNum t.exitQuantity && t.exitDate.isSome) = true
  · have h3 := h
    simp only [Bool.and_eq_true] at h3
    simp [tradePreSaveHook, h, h3.1.1, h3.1.2, h3.2]
  · have h3 : ¬(truthyNum t.exitPrice = true ∧ truthyNum t.exitQuantity = true ∧
        t.exitDate.isSome = true) := by
      intro hc
      exact h (by simp [hc.1, hc.2.1, hc.2.2])
    simp [tradePreSaveHook, h, h3]

/-- Claim C6: a fully closed LONG trade with entry price 10, quantity 100 and
exit price 12 yields `realized = 200` and `percentage = 20`, and the
identical SHORT trade yields `realized = −200`, in both the model pre-save
hook and the route helper, for every choice of the remaining fields. -/
theorem C6_full_close_sign (tt : TradeType) (ed xd r0 : ℚ) (p0 : JsNum)
    (s0 : Status) (ov : Bool) :
    let longT : TradeDoc :=
      { type := Direction.LONG, tradeType := tt, entryPrice := 10,
        entryQuantity := 100, entryDate := ed, exitPrice := some 12,
        exitQuantity := some 100, exitDate := some xd, realized := r0,
        percentage := p0, status := s0, validationSameDayAs := ov }
    let shortT : TradeDoc := { longT with type := Direction.SHORT }
    (tradePreSaveHook longT).realized = 200
    ∧ (tradePreSaveHook longT).percentage = JsNum.finite 20
    ∧ calculateProfitLoss longT =
        Except.ok { realized := 200, percentage := 20, status := Status.CLOSED }
    ∧ (tradePreSaveHook shortT).realized = -200
    ∧ calculateProfitLoss shortT =
        Except.ok { realized := -200, percentage := -20, status := Status.CLOSED } := by
  refine ⟨?_, ?_, ?_, ?_, ?_⟩
  · simp [tradePreSaveHook, truthyNum]
    norm_num
  · simp [tradePreSaveHook, truthyNum, jsDivMul100]
    norm_num
  · simp [calculateProfitLoss, truthyNum, roundTo2]
    norm_num [round_eq]
  · simp [tradePreSaveHook, truthyNum]
    norm_num
  · simp [calculateProfitLoss, truthyNum, roundTo2]
    norm_num [round_eq]

/-- The P/L hook never changes the `tradeType` field. -/
theorem tradePreSaveHook_tradeType (t : TradeDoc) :
    (tradePreSaveHook t).tradeType = t.tradeType := by
  unfold tradePreSaveHook
  split <;> rfl

/-- The P/L hook never changes the `exitDate` field. -/
theorem tradePreSaveHook_exitDate (t : TradeDoc) :
    (tradePreSaveHook t).exitDate = t.exitDate := by
  unfold tradePreSaveHook
  split <;> rfl

/-- The P/L hook never changes the `entryDate` field. -/
theorem tradePreSaveHook_entryDate (t : TradeDoc) :
    (tradePreSaveHook t).entryDate = t.entryDate := by
  unfold tradePreSaveHook
  split <;> rfl

/-- The P/L hook never changes the `_validationSameDayAs` override field. -/
theorem tradePreSaveHook_validationSameDayAs (t : TradeDoc) :
    (tradePreSaveHook t).validationSameDayAs = t.validationSameDayAs := by
  unfold tradePreSaveHook
  split <;> rfl

/-- Claim C3 (counterexample): a DAY trade whose exit date lies 90 hours
BEFORE its entry date — so the signed difference `exit − entry` is negative,
far below 24 hours — is rejected by the save (the code takes the absolute
difference), with no override supplied. -/
theorem C3_counterexample :
    saveTrade backwardDayTrade =
      Except.error "Day trades must have entry and exit within 24 hours"
    ∧ backwardDayTrade.exitDate.getD 0 - backwardDayTrade.entryDate < 0
    ∧ backwardDayTrade.validationSameDayAs = false := by
  refine ⟨?_, by norm_num [backwardDayTrade], rfl⟩
  simp [saveTrade, tradePreSaveHook, dayTradeHookError, backwardDayTrade, truthyNum, msPerHour]
  norm_num

/-- Claim C3 (amended): for a DAY trade with an exit date, the save is
rejected (with the day-trade window error) if and only if no override flag is
supplied and the ABSOLUTE difference between exit and entry timestamps
exceeds 24 hours. -/
theorem C3_day_window_abs (t : TradeDoc) (x : ℚ)
    (hday : t.tradeType = TradeType.DAY) (hexit : t.exitDate = some x) :
    (∃ e, saveTrade t = Except.error e) ↔
      (t.validationSameDayAs = false ∧ 24 < |x - t.entryDate| / msPerHour) := by
  have hday1 : (tradePreSaveHook t).tradeType = TradeType.DAY := by
    rw [tradePreSaveHook_tradeType, hday]
  have hexit1 : (tradePreSaveHook t).exitDate = some x := by
    rw [tradePreSaveHook_exitDate, hexit]
  have hent : (tradePreSaveHook t).entryDate = t.entryDate :=
    tradePreSaveHook_entryDate t
  have hov : (tradePreSaveHook t).validationSameDayAs = t.validationSameDayAs :=
    tradePreSaveHook_validationSameDayAs t
  have herr : dayTradeHookError (tradePreSaveHook t) =
      if t.validationSameDayAs then none
      else if 24 < |x - t.entryDate| / msPerHour then
        some "Day trades must have entry and exit within 24 hours"
      else none := by
    simp [dayTradeHookError, hday1, hexit1, hent, hov]
  simp only [saveTrade]
  rw [herr]
  by_cases hv : t.validationSameDayAs = true
  · simp [hv]
  · by_cases hlt : 24 < |x - t.entryDate| / msPerHour
    · simp [hv, hlt]
    · simp [hv, hlt]

/-- Claim C3 (witness): the amended theorem applied to the DAY trade exiting
86401000 ms (24h00m01s) after entry; together with the 24 < 86401/3600 fact
this gives the spec's boundary rejection. -/
theorem C3_day_window_abs_witness :
    lateDayTrade.tradeType = TradeType.DAY
    ∧ lateDayTrade.exitDate = some 86401000
    ∧ ((∃ e, saveTrade lateDayTrade = Except.error e) ↔
        (lateDayTrade.validationSameDayAs = false ∧
          24 < |(86401000 : ℚ) - lateDayTrade.entryDate| / msPerHour)) :=
  ⟨rfl, rfl, C3_day_window_abs lateDayTrade 86401000 rfl rfl⟩

/-- Claim C7: for an OPTION trade and an EQUITY trade with the same
direction, entry price, exit price, exit date and quantity (the equity
trade's entry and exit quantities both equal to the option trade's contract
count), the option hook's realized P&L is exactly 100 times the equity
hook's, for every choice of the remaining fields. -/
theorem C7_option_multiplier (d : Direction) (ep q : ℚ) (xp xd : Option ℚ)
    (tt : TradeType) (ed r0 : ℚ) (p0 : JsNum) (s0 : Status) (ov : Bool)
    (r1 : ℚ) (p1 pc1 : JsNum) (s1 : Status) :
    (optionPreSaveHook
      { type := d, entryPrice := ep, contracts := q, exitPrice := xp,
        exitDate := xd, realized := r1, percentage := p1, perContract := pc1,
        status := s1 }).realized
      = 100 *
        (tradePreSaveHook
          { type := d, tradeType := tt, entryPrice := ep, entryQuantity := q,
            entryDate := ed, exitPrice := xp, exitQuantity := some q,
            exitDate := xd, realized := r0, percentage := p0, status := s0,
            validationSameDayAs := ov }).realized := by
  rcases xp with _ | v
  · simp [optionPreSaveHook, tradePreSaveHook, truthyNum]
  · rcases xd with _ | w
    · simp [optionPreSaveHook, tradePreSaveHook, truthyNum]
    · by_cases hv : v = 0
      · simp [optionPreSaveHook, tradePreSaveHook, truthyNum, hv]
      · by_cases hq : q = 0
        · cases d <;>
            simp [optionPreSaveHook, tradePreSaveHook, truthyNum, hv, hq]
        · cases d <;>
            (simp [optionPreSaveHook, tradePreSaveHook, truthyNum, hv, hq]; ring)

/-- Claim C8 (counterexample): a trade with truthy exit details and zero
entry value (zero-price entry) saves WITHOUT any error through the model
pre-save hooks, storing `Infinity` as the percentage — no
`ZeroEntryValueError` is surfaced on this path. -/
theorem C8_counterexample :
    saveTrade zeroEntryTrade = Except.ok (tradePreSaveHook zeroEntryTrade)
    ∧ (tradePreSaveHook zeroEntryTrade).percentage = JsNum.posInf
    ∧ (tradePreSaveHook zeroEntryTrade).status = Status.CLOSED := by
  refine ⟨?_, ?_, ?_⟩
  · simp [saveTrade, dayTradeHookError, tradePreSaveHook, zeroEntryTrade, truthyNum]
  · simp [tradePreSaveHook, zeroEntryTrade, truthyNum, jsDivMul100]
  · simp [tradePreSaveHook, zeroEntryTrade, truthyNum]

/-- Claim C8 (amended): when exit price and exit quantity are truthy and the
entry value is zero, the route helper `calculateProfitLoss` throws the zero
entry value error, while the model pre-save hook performs no such check: it
completes and stores a NON-FINITE percentage (`±Infinity` or `NaN`). -/
theorem C8_zero_entry_value (t : TradeDoc)
    (hp : truthyNum t.exitPrice = true) (hq : truthyNum t.exitQuantity = true)
    (hz : t.entryPrice * t.entryQuantity = 0) :
    calculateProfitLoss t = Except.error "Entry value cannot be zero"
    ∧ (t.exitDate.isSome = true →
        ∀ r : ℚ, (tradePreSaveHook t).percentage ≠ JsNum.finite r) := by
  constructor
  · simp [calculateProfitLoss, hp, hq, hz]
  · intro hd r
    simp only [tradePreSaveHook, hp, hq, hd, Bool.and_self, if_true]
    simp only [hz, jsDivMul100]
    split_ifs <;> simp_all

/-- Claim C8 (witness): the amended theorem applied to the zero-entry-price
trade with exit price 5 and exit quantity 1. -/
theorem C8_zero_entry_value_witness :
    truthyNum zeroEntryTrade.exitPrice = true
    ∧ truthyNum zeroEntryTrade.exitQuantity = true
    ∧ zeroEntryTrade.entryPrice * zeroEntryTrade.entryQuantity = 0
    ∧ calculateProfitLoss zeroEntryTrade = Except.error "Entry value cannot be zero"
    ∧ (zeroEntryTrade.exitDate.isSome = true →
        ∀ r : ℚ, (tradePreSaveHook zeroEntryTrade).percentage ≠ JsNum.finite r) := by
  have h1 : truthyNum zeroEntryTrade.exitPrice = true := by
    simp [zeroEntryTrade, truthyNum]
  have h2 : truthyNum zeroEntryTrade.exitQuantity = true := by
    simp [zeroEntryTrade, truthyNum]
  have h3 : zeroEntryTrade.entryPrice * zeroEntryTrade.entryQuantity = 0 := by
    norm_num [zeroEntryTrade]
  have h := C8_zero_entry_value zeroEntryTrade h1 h2 h3
  exact ⟨h1, h2, h3, h.1, h.2⟩

/-- The `$group` totalProfit accumulator computes the sum of the matched
documents' realized P&L. -/
theorem aggStep_foldl_totalProfit (ts : List StoredTrade) :
    ∀ acc : AggRow, (ts.foldl aggStep acc).totalProfit
      = acc.totalProfit + (ts.map StoredTrade.realized).sum := by
  induction ts with
  | nil => intro acc; simp
  | cons a l ih =>
    intro acc
    simp [List.foldl_cons, ih, aggStep]
    ring

/-- A trader's leaderboard `totalProfit` is the sum of realized P&L over the
trader's `createdAt`-filtered EQUITY trades. -/
theorem traderStatsFor_totalProfit (start : Option ℚ) (u : UserRec) :
    (traderStatsFor start u).totalProfit =
      ((u.equityTrades.filter (inWindow start)).map StoredTrade.realized).sum := by
  unfold traderStatsFor
  cases hts : u.equityTrades.filter (inWindow start) with
  | nil => simp [aggregateRows, hts]
  | cons a l =>
    simp only [hts, aggregateRows, Option.getD_some]
    simp [aggStep_foldl_totalProfit, aggStep]

/-- Claim C4 (counterexample): with a trade-less user listed first, a user
with equity profit 100 second, and a user whose only trade is an OPTION
trade of realized 50 third, the leaderboard returns profits `[0, 100, 0]` —
not sorted descending by `totalProfit`, and the option trade is not counted
(its user shows 0, not 50). -/
theorem C4_counterexample :
    (leaderboard [emptyUser, equityUser, optionOnlyUser] TimeFrame.all nowCtx0).map
        TraderStats.totalProfit = [0, 100, 0]
    ∧ ¬ List.Sorted (fun a b : ℚ => b ≤ a)
        ((leaderboard [emptyUser, equityUser, optionOnlyUser] TimeFrame.all nowCtx0).map
          TraderStats.totalProfit)
    ∧ (optionOnlyUser.optionTrades.map StoredTrade.realized).sum = 50 := by
  have h1 : (leaderboard [emptyUser, equityUser, optionOnlyUser] TimeFrame.all nowCtx0).map
      TraderStats.totalProfit = [0, 100, 0] := by
    simp [leaderboard, traderStatsFor, windowStart, inWindow, aggregateRows, aggStep,
      emptyUser, equityUser, optionOnlyUser, nowCtx0]
  refine ⟨h1, ?_, by simp [optionOnlyUser]⟩
  rw [h1]
  intro hs
  have h100 := (List.pairwise_cons.mp hs).1 100 (by simp)
  norm_num at h100

/-- Claim C4 (amended): the leaderboard handler computes each user's stats
over that user's EQUITY trades only, filtered by `createdAt`, and returns
the users in their stored order: the profit column equals, user by user in
input order, the sum of realized P&L of the filtered equity trades, and
removing every option trade changes nothing. -/
theorem C4_equity_only_unsorted (users : List UserRec) (tf : TimeFrame) (n : NowCtx) :
    (leaderboard users tf n).map TraderStats.totalProfit
      = users.map (fun u =>
          ((u.equityTrades.filter (inWindow (windowStart tf n))).map
            StoredTrade.realized).sum)
    ∧ leaderboard (users.map dropOptionTrades) tf n = leaderboard users tf n := by
  constructor
  · simp only [leaderboard, List.map_map]
    apply List.map_congr_left
    intro u _
    exact traderStatsFor_totalProfit _ u
  · simp only [leaderboard, List.map_map]
    rfl

/-- Claim C5: a user whose equity trades all fall outside the selected
window (in particular a user with zero trades) still appears in the
leaderboard output, at their input position, with all-zero stats. -/
theorem C5_zero_trade_inclusion (users : List UserRec) (tf : TimeFrame) (n : NowCtx)
    (i : ℕ) (h : i < users.length)
    (hz : users[i].equityTrades.filter (inWindow (windowStart tf n)) = []) :
    (leaderboard users tf n).length = users.length
    ∧ (leaderboard users tf n)[i]? =
        some { totalTrades := 0, winningTrades := 0, totalProfit := 0, winRate := 0 } := by
  constructor
  · simp [leaderboard]
  · have hmap : (leaderboard users tf n)[i]? =
        some (traderStatsFor (windowStart tf n) users[i]) := by
      simp [leaderboard, List.getElem?_eq_getElem, h]
    rw [hmap]
    simp [traderStatsFor, hz, aggregateRows]

/-- Claim C5 (witness): the inclusion theorem applied to a one-user list
whose user has no trades at all. -/
theorem C5_zero_trade_inclusion_witness :
    (0 : ℕ) < [emptyUser].length
    ∧ [emptyUser][0].equityTrades.filter (inWindow (windowStart TimeFrame.all nowCtx0)) = []
    ∧ ((leaderboard [emptyUser] TimeFrame.all nowCtx0).length = [emptyUser].length
       ∧ (leaderboard [emptyUser] TimeFrame.all nowCtx0)[0]? =
          some { totalTrades := 0, winningTrades := 0, totalProfit := 0, winRate := 0 }) := by
  have h : (0 : ℕ) < [emptyUser].length := by simp
  have hz : [emptyUser][0].equityTrades.filter (inWindow (windowStart TimeFrame.all nowCtx0)) = [] := by
    simp [emptyUser]
  exact ⟨h, hz, C5_zero_trade_inclusion [emptyUser] TimeFrame.all nowCtx0 0 h hz⟩

/-- Claim C10: for the `today`, `week`, `month` and `year` windows, a trade
passes the leaderboard filter exactly when its `createdAt` is on or after
the window's start timestamp; membership in the filtered list the stats
aggregate is exactly `createdAt ≥ start`, and the trade's entry and exit
dates play no role in the filter. -/
theorem C10_createdAt_filter (n : NowCtx) (t : StoredTrade) :
    (inWindow (windowStart TimeFrame.today n) t = true ↔ n.startOfToday ≤ t.createdAt)
    ∧ (inWindow (windowStart TimeFrame.week n) t = true ↔ n.sevenDaysAgo ≤ t.createdAt)
    ∧ (inWindow (windowStart TimeFrame.month n) t = true ↔ n.oneMonthAgo ≤ t.createdAt)
    ∧ (inWindow (windowStart TimeFrame.year n) t = true ↔ n.oneYearAgo ≤ t.createdAt)
    ∧ (∀ ts : List StoredTrade,
        t ∈ ts.filter (inWindow (windowStart TimeFrame.today n)) ↔
          (t ∈ ts ∧ n.startOfToday ≤ t.createdAt))
    ∧ (∀ (tf : TimeFrame) (e : ℚ) (x : Option ℚ),
        inWindow (windowStart tf n) { t with entryDate := e, exitDate := x }
          = inWindow (windowStart tf n) t) := by
  refine ⟨by simp [inWindow, windowStart], by simp [inWindow, windowStart],
    by simp [inWindow, windowStart], by simp [inWindow, windowStart], ?_, ?_⟩
  · intro ts
    simp [List.mem_filter, inWindow, windowStart]
  · intro tf e x
    cases tf <;> simp [inWindow, windowStart]

/-- The drawdown loop body depends only on the trade's realized P&L, never
on its exit date. -/
theorem drawdownStep_realized (s : DrawdownState) (t1 t2 : DTrade)
    (h : t1.realized = t2.realized) : drawdownStep s t1 = drawdownStep s t2 := by
  simp [drawdownStep, h]

/-- The whole drawdown analysis depends only on the sequence of realized
P&L values. -/
theorem drawdownFold_congr (ts1 : List DTrade) :
    ∀ (ts2 : List DTrade) (s : DrawdownState),
      ts1.map DTrade.realized = ts2.map DTrade.realized →
      ts1.foldl drawdownStep s = ts2.foldl drawdownStep s := by
  induction ts1 with
  | nil =>
    intro ts2 s h
    cases ts2 with
    | nil => rfl
    | cons b m => simp at h
  | cons a l ih =>
    intro ts2 s h
    cases ts2 with
    | nil => simp at h
    | cons b m =>
      simp only [List.map_cons, List.cons.injEq] at h
      rw [List.foldl_cons, List.foldl_cons, drawdownStep_realized s a b h.1]
      exact ih m _ h.2

/-- Appending one trade to the drawdown input applies one loop iteration. -/
theorem drawdownAnalysis_append (ts : List DTrade) (t : DTrade) :
    drawdownAnalysis (ts ++ [t]) = drawdownStep (drawdownAnalysis ts) t := by
  simp [drawdownAnalysis, List.foldl_append]

/-- Claim C9 (counterexample): two losing trades exiting on the SAME
calendar day give `maxConsecutiveLosses = 2` in `GET /analysis/drawdown`,
while the day-grouped counting the claim describes gives 1 (one losing
day). -/
theorem C9_counterexample :
    (drawdownAnalysis [sameDayLossA, sameDayLossB]).maxConsecutiveLosses = 2
    ∧ sameDayLossA.exitDay = sameDayLossB.exitDay
    ∧ specMaxConsecutiveLossDays [sameDayLossA, sameDayLossB] = 1 := by
  refine ⟨?_, rfl, ?_⟩
  · norm_num [drawdownAnalysis, drawdownStep, drawdownInit, sameDayLossA, sameDayLossB]
  · norm_num [specMaxConsecutiveLossDays, dailyPL, sumDaysAux, maxNegRunAux,
      sameDayLossA, sameDayLossB]

/-- Claim C9 (amended): the drawdown endpoint's loss streaks are counted
per INDIVIDUAL trade: the analysis depends only on the sequence of realized
values (exit days play no role), each trade with negative realized P&L
increments `currentLossStreak` and folds it into `maxConsecutiveLosses`,
and each trade with non-negative realized P&L resets the streak. -/
theorem C9_loss_streak_per_trade (ts : List DTrade) (t : DTrade) :
    (∀ ts2 : List DTrade, ts.map DTrade.realized = ts2.map DTrade.realized →
        drawdownAnalysis ts = drawdownAnalysis ts2)
    ∧ (t.realized < 0 →
        (drawdownAnalysis (ts ++ [t])).currentLossStreak
            = (drawdownAnalysis ts).currentLossStreak + 1
        ∧ (drawdownAnalysis (ts ++ [t])).maxConsecutiveLosses
            = max (drawdownAnalysis ts).maxConsecutiveLosses
                ((drawdownAnalysis ts).currentLossStreak + 1))
    ∧ (0 ≤ t.realized →
        (drawdownAnalysis (ts ++ [t])).currentLossStreak = 0
        ∧ (drawdownAnalysis (ts ++ [t])).maxConsecutiveLosses
            = (drawdownAnalysis ts).maxConsecutiveLosses) := by
  refine ⟨fun ts2 h => drawdownFold_congr ts ts2 drawdownInit h, ?_, ?_⟩
  · intro h
    rw [drawdownAnalysis_append]
    constructor
    · simp [drawdownStep, h]
    · simp only [drawdownStep, h, if_true]
      split_ifs <;> omega
  · intro h
    rw [drawdownAnalysis_append]
    constructor <;> simp [drawdownStep, not_lt.mpr h]

/-- Claim C9 (witness): the per-trade characterization applied to the
concrete pair of same-day losing trades. -/
theorem C9_loss_streak_per_trade_witness :
    sameDayLossB.realized < 0
    ∧ ((drawdownAnalysis ([sameDayLossA] ++ [sameDayLossB])).currentLossStreak
          = (drawdownAnalysis [sameDayLossA]).currentLossStreak + 1
       ∧ (drawdownAnalysis ([sameDayLossA] ++ [sameDayLossB])).maxConsecutiveLosses
          = max (drawdownAnalysis [sameDayLossA]).maxConsecutiveLosses
              ((drawdownAnalysis [sameDayLossA]).currentLossStreak + 1)) := by
  have h : sameDayLossB.realized < 0 := by norm_num [sameDayLossB]
  exact ⟨h, (C9_loss_streak_per_trade [sameDayLossA] sameDayLossB).2.1 h⟩

end TradingJournal
